import Mathlib

/-!
# Verification of the SQL migration-engine core against its specification

This file gives a shallow embedding, in Lean 4, of the parts of the
`prisma-engines` migration core that the specification's claims are about:

* the schema model (tables, columns, defaults, indexes, foreign keys, enums),
* the MSSQL catalog describer's foreign-key action decoding and
  default-value parsing (`libs/sql-schema-describer/src/mssql.rs`),
* the MSSQL type-change classification
  (`sql_schema_differ/sql_schema_differ_flavour/mssql.rs`),
* the MSSQL destructive-change checker
  (`sql_destructive_change_checker/destructive_change_checker_flavour/mssql.rs`),
* the MSSQL `AlterColumn` expansion (`sql_migration/expanded_alter_column.rs`)
  and the MSSQL `ALTER TABLE` renderer (`sql_renderer/mssql_renderer.rs`),
* the PostgreSQL `AlterEnum` renderer (`sql_renderer/postgres_renderer.rs`),
* the SQLite `RedefineTables` renderer (`sql_renderer/sqlite_renderer.rs`),
* script assembly (`sql_database_step_applier.rs`).

Rust `panic!` / `unwrap` / `expect` sites are modelled with an explicit
`POr` ("panic or value") result type, so that reachability of a panic is a
provable statement. Definitions follow the Rust sources; the few places where
the deciding code lives outside the provided sources (identifier quoting,
`ColumnChanges`, step descriptions, `is_empty` on migrations) are modelled
from the specification and say so in their doc comment.
-/

/-- The subset of `PrismaValue` (from the `prisma_value` crate) that default
values in the schema model carry. -/
inductive PrismaValue where
  | int (n : Int)
  | string (s : String)
  | boolean (b : Bool)
  | enumVariant (s : String)
  | bytes (bs : List Nat)
  | float (s : String)
deriving DecidableEq, Repr

/-- `Display` for `PrismaValue` as used by `format!("{}", val)` in the
renderers (only the cases the claims exercise matter; numbers print in the
usual decimal notation). -/
def PrismaValue.display : PrismaValue → String
  | .int n => toString n
  | .string s => s
  | .boolean b => if b then "true" else "false"
  | .enumVariant s => s
  | .bytes _ => ""
  | .float s => s

/-- `ColumnTypeFamily` from `sql-schema-describer`. -/
inductive ColumnTypeFamily where
  | boolean
  | int
  | bigInt
  | float
  | decimal
  | string
  | dateTime
  | binary
  | json
  | uuid
  | enumType (name : String)
  | unsupported (raw : String)
deriving DecidableEq, Repr

/-- `ColumnArity` from `sql-schema-describer`. -/
inductive ColumnArity where
  | required
  | nullable
  | list
deriving DecidableEq, Repr

def ColumnArity.is_required : ColumnArity → Bool
  | .required => true
  | _ => false

def ColumnArity.is_nullable : ColumnArity → Bool
  | .nullable => true
  | _ => false

/-- `DefaultKind` from `sql-schema-describer`: the tagged variant of a
column default. -/
inductive DefaultKind where
  | value (v : PrismaValue)
  | dbGenerated (expr : String)
  | now
  | sequence (name : String)
deriving DecidableEq, Repr

/-- `DefaultValue`: a `DefaultKind` plus the optional constraint name used on
MSSQL, where defaults are named constraints. -/
structure DefaultValue where
  kind : DefaultKind
  constraint_name : Option String := none
deriving DecidableEq, Repr

/-- `ColumnType` from `sql-schema-describer` (the fields the claims need). -/
structure ColumnType where
  family : ColumnTypeFamily
  full_data_type : String := ""
  arity : ColumnArity
deriving DecidableEq, Repr

/-- `Column` from `sql-schema-describer`. -/
structure Column where
  name : String
  tpe : ColumnType
  default : Option DefaultValue := none
  auto_increment : Bool := false
deriving DecidableEq, Repr

def Column.arity (c : Column) : ColumnArity := c.tpe.arity

def Column.column_type_family (c : Column) : ColumnTypeFamily := c.tpe.family

/-- `IndexType` from `sql-schema-describer`. -/
inductive IndexType where
  | unique
  | normal
deriving DecidableEq, Repr

/-- `Index` from `sql-schema-describer`. -/
structure Index where
  name : String
  columns : List String
  tpe : IndexType
deriving DecidableEq, Repr

/-- `PrimaryKey` from `sql-schema-describer`. -/
structure PrimaryKey where
  columns : List String
  constraint_name : Option String := none
deriving DecidableEq, Repr

/-- `ForeignKeyAction` from `sql-schema-describer`. -/
inductive ForeignKeyAction where
  | noAction
  | restrict
  | cascade
  | setNull
  | setDefault
deriving DecidableEq, Repr

/-- `ForeignKey` from `sql-schema-describer`. -/
structure ForeignKey where
  constraint_name : Option String := none
  columns : List String
  referenced_table : String
  referenced_columns : List String
  on_delete_action : ForeignKeyAction := .noAction
  on_update_action : ForeignKeyAction := .noAction
deriving DecidableEq, Repr

/-- `Table` from `sql-schema-describer`. -/
structure Table where
  name : String
  columns : List Column := []
  indices : List Index := []
  primary_key : Option PrimaryKey := none
  foreign_keys : List ForeignKey := []
deriving DecidableEq, Repr

/-- `Enum` from `sql-schema-describer`: a name and the ordered variants. -/
structure SqlEnum where
  name : String
  values : List String
deriving DecidableEq, Repr

/-- `SqlSchema` from `sql-schema-describer` (sequences are not needed by the
claims). -/
structure SqlSchema where
  tables : List Table := []
  enums : List SqlEnum := []
deriving DecidableEq, Repr

/-- `Pair<T>` from the migration connector: the same logical object before
(previous) and after (next) the migration. -/
structure Pair (α : Type) where
  previous : α
  next : α
deriving DecidableEq, Repr

def defaultTable : Table := { name := "" }

def defaultColumn : Column :=
  { name := "", tpe := { family := .int, arity := .required } }

def defaultEnum : SqlEnum := { name := "", values := [] }

/-- `schemas.tables(&table_index)`: resolve a pair of table indexes to a pair
of tables (the walkers' index lookup; indexes are assumed in bounds by the
callers). -/
def Pair.tablesAt (schemas : Pair SqlSchema) (ix : Pair Nat) : Pair Table :=
  ⟨schemas.previous.tables.getD ix.previous defaultTable,
   schemas.next.tables.getD ix.next defaultTable⟩

/-- `schemas.enums(&index)`: resolve a pair of enum indexes. -/
def Pair.enumsAt (schemas : Pair SqlSchema) (ix : Pair Nat) : Pair SqlEnum :=
  ⟨schemas.previous.enums.getD ix.previous defaultEnum,
   schemas.next.enums.getD ix.next defaultEnum⟩

/-- `tables.columns(&column_index)`: resolve a pair of column indexes inside a
pair of tables. -/
def Pair.columnsAt (tables : Pair Table) (ix : Pair Nat) : Pair Column :=
  ⟨tables.previous.columns.getD ix.previous defaultColumn,
   tables.next.columns.getD ix.next defaultColumn⟩

/-- `table.column_at(index)` on a walker. -/
def Table.column_at (t : Table) (i : Nat) : Column :=
  t.columns.getD i defaultColumn

/-- A value of type `POr α` is the result of running a Rust computation that
may `panic!` (also via `unwrap` / `expect`): either the panic message, or the
value. -/
inductive POr (α : Type) where
  | panicked (msg : String)
  | ok (a : α)
deriving DecidableEq, Repr

def POr.isPanicked {α : Type} : POr α → Bool
  | .panicked _ => true
  | .ok _ => false

/-! ## MSSQL describer: foreign-key referential action decoding

From `libs/sql-schema-describer/src/mssql.rs`, `get_foreign_keys`, lines
453–467. The source decodes the integer catalog codes with a `match` whose
last arm is `s => panic!(format!("Unrecognized on delete action '{}'", s))`
(the same message is used for the update action). -/

/-- The `match` on `delete_referential_action` (and, with the same arms and
message, on `update_referential_action`) in
`SqlSchemaDescriber::get_foreign_keys`. The `panicked` case is the source's
`panic!` arm. -/
def mssqlParseReferentialAction (s : Int) : POr ForeignKeyAction :=
  if s = 0 then .ok .noAction
  else if s = 1 then .ok .cascade
  else if s = 2 then .ok .setNull
  else if s = 3 then .ok .setDefault
  else .panicked ("Unrecognized on delete action '" ++ toString s ++ "'")

/-! ## MSSQL differ flavour: column type change classification

From `sql_schema_differ/sql_schema_differ_flavour/mssql.rs`, lines 22–34. -/

/-- `TypeChange` (`ColumnTypeChange` in the source). -/
inductive ColumnTypeChange where
  | safeCast
  | riskyCast
  | notCastable
deriving DecidableEq, Repr

/-- `MssqlFlavour::column_type_change`, operating on the two column type
families (`differ.previous.column_type_family()`,
`differ.next.column_type_family()`). `none` is "no change". -/
def mssqlColumnTypeChange (previous next : ColumnTypeFamily) : Option ColumnTypeChange :=
  if previous = next then none
  else
    match previous, next with
    | _, .string => some .safeCast
    | .string, .int => some .notCastable
    | .dateTime, .float => some .notCastable
    | .string, .float => some .notCastable
    | _, _ => some .riskyCast

/-! ## MSSQL destructive-change checker

From `sql_destructive_change_checker/destructive_change_checker_flavour/mssql.rs`. -/

/-- The entries of `UnexecutableStepCheck` that the MSSQL flavour pushes. -/
inductive UnexecutableStepCheck where
  | madeOptionalFieldRequired (column table : String)
  | addedRequiredFieldToTable (column table : String)
  | dropAndRecreateRequiredColumn (column table : String)
deriving DecidableEq, Repr

/-- The entries of `SqlMigrationWarningCheck` that the MSSQL flavour pushes. -/
inductive SqlMigrationWarningCheck where
  | riskyCast (table column previousType nextType : String)
  | dropAndRecreateColumn (column table : String)
deriving DecidableEq, Repr

/-- One entry of the `DestructiveCheckPlan`: either a warning or an
unexecutable marker. -/
inductive PlanEntry where
  | warning (w : SqlMigrationWarningCheck)
  | unexecutable (u : UnexecutableStepCheck)
deriving DecidableEq, Repr

/-- Modelled from the spec: `ColumnChanges` is a set over the change atoms
{Default, Arity, TypeChanged, Sequence, Renaming}
(`sql_schema_differ/column.rs` is not among the provided sources; its
accessors `default_changed`, `arity_changed`, `only_default_changed`,
`column_was_renamed` read the corresponding members). -/
structure ColumnChanges where
  defaultChanged : Bool := false
  arityChanged : Bool := false
  typeChanged : Bool := false
  sequenceChanged : Bool := false
  renamed : Bool := false
deriving DecidableEq, Repr

/-- Modelled from the spec: `only_default_changed` holds when the change set
is exactly {Default}. -/
def ColumnChanges.onlyDefaultChanged (c : ColumnChanges) : Bool :=
  c.defaultChanged && !c.arityChanged && !c.typeChanged && !c.sequenceChanged && !c.renamed

/-- `AlterColumn` table change (`sql_migration`): the paired column index, the
change set and the optional type change classification. -/
structure AlterColumn where
  column_index : Pair Nat
  changes : ColumnChanges
  type_change : Option ColumnTypeChange := none
deriving DecidableEq, Repr

/-- A `ColumnWalker` carries its table; for the checker only the table and
column names and the column data matter. -/
structure ColumnW where
  tableName : String
  col : Column
deriving DecidableEq, Repr

/-- `default_can_be_rendered` from
`destructive_change_checker_flavour/mssql.rs`, lines 101–109: whether a
default is usable for back-filling existing rows. -/
def default_can_be_rendered (default : Option DefaultValue) : Bool :=
  match default.map (fun d => d.kind) with
  | none => false
  | some (DefaultKind.value _) => true
  | some (DefaultKind.dbGenerated expr) => !expr.isEmpty
  | some DefaultKind.now => true
  | some (DefaultKind.sequence _) => false

/-- `MssqlFlavour::check_alter_column` (lines 17–57): the sequence of plan
entries pushed for one `AlterColumn` step. The source returns early after
pushing `MadeOptionalFieldRequired`; the `dbg!` around `type_change` is the
identity. -/
def mssqlCheckAlterColumn (alter_column : AlterColumn) (columns : Pair ColumnW) :
    List PlanEntry :=
  if alter_column.changes.onlyDefaultChanged then []
  else if alter_column.changes.arityChanged && columns.next.col.arity.is_required then
    [.unexecutable (.madeOptionalFieldRequired columns.previous.col.name columns.previous.tableName)]
  else if alter_column.type_change = some .riskyCast then
    [.warning (.riskyCast columns.previous.tableName columns.previous.col.name
      (reprStr columns.previous.col.column_type_family)
      (reprStr columns.next.col.column_type_family))]
  else []

/-! ## Panic-propagating computations -/

def POr.bind {α β : Type} : POr α → (α → POr β) → POr β
  | .panicked msg, _ => .panicked msg
  | .ok a, f => f a

instance : Monad POr where
  pure := POr.ok
  bind := POr.bind

/-- `Iterator::join(sep)` from itertools, used pervasively by the renderers. -/
def joinSep (sep : String) : List String → String
  | [] => ""
  | [x] => x
  | x :: y :: rest => x ++ sep ++ joinSep sep (y :: rest)

/-- Replace every `'` by `''` (the effect of the renderers' escaping of
string literals: MSSQL `escape_string_literal`, SQLite `escape_quotes`). -/
def escapeSingleQuotes : List Char → List Char
  | [] => []
  | c :: rest =>
      if c = '\'' then '\'' :: '\'' :: escapeSingleQuotes rest
      else c :: escapeSingleQuotes rest

def escape_string_literal (s : String) : String :=
  String.mk (escapeSingleQuotes s.data)

/-- One lowercase hexadecimal digit. -/
def hexDigit (n : Nat) : Char :=
  if n < 10 then Char.ofNat (48 + n) else Char.ofNat (87 + n)

/-- `format_hex` from the renderers' `common.rs` (not among the provided
sources): each byte as two lowercase hexadecimal digits. Not relied on by any
claim. -/
def format_hex (bytes : List Nat) : String :=
  String.mk (bytes.flatMap (fun b => [hexDigit (b / 16 % 16), hexDigit (b % 16)]))

/-! ## Identifier quoting

Modelled from the spec: `Quoted` lives in the renderers' `common.rs`, which
is not among the provided sources. The spec fixes the quoting rules per
flavor (double quotes on PostgreSQL/SQLite, brackets with schema
qualification on MSSQL) and its literal scenarios show `"Color"`, `'Green'`,
`[dbo].[Cat]`. -/

/-- Modelled from the spec: `Quoted::postgres_ident`. -/
def postgresIdent (s : String) : String := "\"" ++ s ++ "\""

/-- Modelled from the spec: `Quoted::postgres_string`. -/
def postgresString (s : String) : String := "'" ++ s ++ "'"

/-- Modelled from the spec: `Quoted::sqlite_ident` (double quotes, matching
the literal `"{}"` format strings elsewhere in `sqlite_renderer.rs`). -/
def sqliteIdent (s : String) : String := "\"" ++ s ++ "\""

/-- Modelled from the spec: `Quoted::mssql_ident` (brackets). -/
def mssqlIdent (s : String) : String := "[" ++ s ++ "]"

/-- Modelled from the spec: `MssqlFlavour::quote_with_schema`, rendering
`[schema].[name]` as in the spec's MSSQL scenario. -/
def mssqlQuoteWithSchema (schemaName name : String) : String :=
  mssqlIdent schemaName ++ "." ++ mssqlIdent name

/-- Modelled from the spec: `common::render_nullability` (` NOT NULL` for a
required column, nothing otherwise). -/
def render_nullability (column : Column) : String :=
  if column.arity.is_required then " NOT NULL" else ""

/-! ## MSSQL `AlterColumn` expansion

From `sql_migration/expanded_alter_column.rs`, lines 91–118. -/

/-- `MsSqlAlterColumn` from `expanded_alter_column.rs`. -/
inductive MsSqlAlterColumn where
  | dropDefault (constraint_name : String)
  | setDefault (default : DefaultValue)
  | modify
deriving DecidableEq, Repr

/-- `expand_mssql_alter_column`. The source calls
`columns.previous().default().unwrap().constraint_name()` and unwraps that
too; both `unwrap`s are modelled as panics. -/
def expand_mssql_alter_column (columns : Pair Column) (column_changes : ColumnChanges) :
    POr (List MsSqlAlterColumn) :=
  if column_changes.defaultChanged then
    match columns.previous.default with
    | none => .panicked "called `Option::unwrap()` on a `None` value"
    | some d =>
      match d.constraint_name with
      | none => .panicked "called `Option::unwrap()` on a `None` value"
      | some constraint_name =>
        .ok ([MsSqlAlterColumn.dropDefault constraint_name]
          ++ (if !column_changes.onlyDefaultChanged then [MsSqlAlterColumn.modify] else [])
          ++ (match columns.next.default with
              | some next_default => [MsSqlAlterColumn.setDefault next_default]
              | none => []))
  else .ok [MsSqlAlterColumn.modify]

/-! ## MSSQL renderer

From `sql_renderer/mssql_renderer.rs`. -/

/-- `mssql_renderer::render_column_type` (lines 512–532). The
`unimplemented!` arms are modelled as panics. -/
def mssqlRenderColumnType (column : Column) : POr String :=
  if column.tpe.full_data_type ≠ "" then .ok column.tpe.full_data_type
  else
    match column.tpe.family with
    | .boolean => .ok "bit"
    | .dateTime => .ok "datetime2"
    | .float => .ok "decimal(32,16)"
    | .decimal => .ok "decimal(32,16)"
    | .int => .ok "int"
    | .bigInt => .ok "bigint"
    | .string => .ok "nvarchar(1000)"
    | .json => .ok "nvarchar(1000)"
    | .binary => .ok "varbinary(max)"
    | .enumType _ => .panicked "Enum not handled yet"
    | .uuid => .panicked "Uuid not handled yet"
    | .unsupported x => .panicked (x ++ " not handled yet")

/-- `MssqlFlavour::render_default` (lines 223–243). The `unreachable!` arm
(`NOW` on a non-datetime column) is modelled as a panic. Arms are tried in
the source's order. -/
def mssqlRenderDefault (default : DefaultValue) (family : ColumnTypeFamily) : POr String :=
  match default.kind, family with
  | .dbGenerated val, _ => .ok val
  | .value (.string val), .string => .ok ("'" ++ escape_string_literal val ++ "'")
  | .value (.enumVariant val), .enumType _ => .ok ("'" ++ escape_string_literal val ++ "'")
  | .value (.bytes b), .binary => .ok ("0x" ++ format_hex b)
  | .now, .dateTime => .ok "CURRENT_TIMESTAMP"
  | .now, _ => .panicked "NOW default on non-datetime column"
  | .value val, .dateTime => .ok ("'" ++ val.display ++ "'")
  | .value (.string val), .json => .ok ("'" ++ val ++ "'")
  | .value (.boolean b), .boolean => .ok (if b then "1" else "0")
  | .value val, _ => .ok val.display
  | .sequence _, _ => .ok ""

def DefaultKind.isDbGenerated : DefaultKind → Bool
  | .dbGenerated _ => true
  | _ => false

/-- `MssqlFlavour::render_column` (lines 175–196). As in the source, the type
and default strings are computed (and can panic) before the auto-increment
branch is taken. -/
def mssqlRenderColumn (column : Column) : POr String := do
  let tpe ← mssqlRenderColumnType column
  let nullability := render_nullability column
  let defaultStr ←
    match column.default.filter (fun d => !d.kind.isDbGenerated) with
    | some d => do
        let r ← mssqlRenderDefault d column.column_type_family
        pure (" DEFAULT " ++ r)
    | none => pure ""
  if column.auto_increment then
    pure (mssqlIdent column.name ++ " int IDENTITY(1,1)")
  else
    pure (mssqlIdent column.name ++ " " ++ tpe ++ nullability ++ defaultStr)

/-- `TableChange` from `sql_migration`. -/
inductive TableChange where
  | addColumn (column_index : Nat)
  | dropColumn (index : Nat)
  | alterColumn (alter_column : AlterColumn)
  | dropAndRecreateColumn (column_index : Pair Nat) (changes : ColumnChanges)
  | addPrimaryKey (columns : List String)
  | dropPrimaryKey
deriving DecidableEq, Repr

/-- `AlterTable` from `sql_migration`. -/
structure AlterTable where
  table_index : Pair Nat
  changes : List TableChange
deriving DecidableEq, Repr

/-- The five statement buckets `MssqlFlavour::render_alter_table` accumulates
before assembling the statement list. -/
structure MssqlAlterTableAcc where
  drop_constraints : List String := []
  add_constraints : List String := []
  add_columns : List String := []
  drop_columns : List String := []
  column_mods : List String := []
deriving DecidableEq, Repr

/-- Processing of one expanded `MsSqlAlterColumn` inside the
`TableChange::AlterColumn` arm of `render_alter_table` (lines 91–122). -/
def mssqlAlterColumnIntoAcc (schemaName : String) (tables : Pair Table)
    (columns : Pair Column) (acc : MssqlAlterTableAcc) :
    MsSqlAlterColumn → POr MssqlAlterTableAcc
  | .dropDefault constraint_name =>
      .ok { acc with drop_constraints := acc.drop_constraints ++ [constraint_name] }
  | .setDefault default => do
      let rendered ← mssqlRenderDefault default columns.next.tpe.family
      pure { acc with add_constraints := acc.add_constraints ++
        ["CONSTRAINT DF__" ++ tables.next.name ++ "__" ++ columns.next.name ++
          " DEFAULT " ++ rendered ++ " FOR " ++ columns.next.name] }
  | .modify => do
      let nullability := if columns.next.arity.is_required then "NOT NULL" else "NULL"
      let tpe ← mssqlRenderColumnType columns.next
      pure { acc with column_mods := acc.column_mods ++
        ["ALTER TABLE " ++ mssqlQuoteWithSchema schemaName tables.previous.name ++
          " ALTER COLUMN " ++ mssqlIdent columns.next.name ++ " " ++ tpe ++ " " ++ nullability] }

/-- Processing of one `TableChange` in the accumulation loop of
`MssqlFlavour::render_alter_table` (lines 43–125). The `expect` on a missing
primary-key constraint name is modelled as a panic. -/
def mssqlTableChangeIntoAcc (schemaName : String) (tables : Pair Table)
    (acc : MssqlAlterTableAcc) : TableChange → POr MssqlAlterTableAcc
  | .dropPrimaryKey =>
      match tables.previous.primary_key >>= (fun pk => pk.constraint_name) with
      | none => .panicked "Missing constraint name in DropPrimaryKey on MSSQL"
      | some constraint =>
          .ok { acc with drop_constraints := acc.drop_constraints ++ [mssqlIdent constraint] }
  | .addPrimaryKey columns =>
      .ok { acc with add_constraints := acc.add_constraints ++
        ["CONSTRAINT PK__" ++ tables.next.name ++ "__" ++ joinSep "__" columns ++
          " PRIMARY KEY (" ++ joinSep "," (columns.map mssqlIdent) ++ ")"] }
  | .addColumn column_index => do
      let rendered ← mssqlRenderColumn (tables.next.column_at column_index)
      pure { acc with add_columns := acc.add_columns ++ [rendered] }
  | .dropColumn index =>
      .ok { acc with drop_columns := acc.drop_columns ++
        [mssqlIdent (tables.previous.column_at index).name] }
  | .dropAndRecreateColumn column_index _ => do
      let columns := tables.columnsAt column_index
      let rendered ← mssqlRenderColumn columns.next
      pure { acc with
        drop_columns := acc.drop_columns ++ [mssqlIdent columns.previous.name],
        add_columns := acc.add_columns ++ [rendered] }
  | .alterColumn alter_column => do
      let columns := tables.columnsAt alter_column.column_index
      let expanded ← expand_mssql_alter_column columns alter_column.changes
      expanded.foldlM (mssqlAlterColumnIntoAcc schemaName tables columns) acc

/-- The statement assembly at the end of `render_alter_table` (lines
127–168): drop-constraints first, then column modifications, then
added constraints, then dropped columns, then added columns. -/
def mssqlAssembleAlterTable (schemaName : String) (previousTableName : String)
    (acc : MssqlAlterTableAcc) : List String :=
  (if acc.drop_constraints.isEmpty then [] else
    ["ALTER TABLE " ++ mssqlQuoteWithSchema schemaName previousTableName ++
      " DROP CONSTRAINT " ++ joinSep ",\n" acc.drop_constraints])
  ++ acc.column_mods
  ++ (if acc.add_constraints.isEmpty then [] else
    ["ALTER TABLE " ++ mssqlQuoteWithSchema schemaName previousTableName ++
      " ADD " ++ joinSep ", " acc.add_constraints])
  ++ (if acc.drop_columns.isEmpty then [] else
    ["ALTER TABLE " ++ mssqlQuoteWithSchema schemaName previousTableName ++
      " DROP COLUMN " ++ joinSep ",\n" acc.drop_columns])
  ++ (if acc.add_columns.isEmpty then [] else
    ["ALTER TABLE " ++ mssqlQuoteWithSchema schemaName previousTableName ++
      " ADD " ++ joinSep ",\n" acc.add_columns])

/-- `MssqlFlavour::render_alter_table` (lines 32–169). -/
def mssqlRenderAlterTable (schemaName : String) (alter_table : AlterTable)
    (schemas : Pair SqlSchema) : POr (List String) := do
  let tables := schemas.tablesAt alter_table.table_index
  let acc ← alter_table.changes.foldlM (mssqlTableChangeIntoAcc schemaName tables) {}
  pure (mssqlAssembleAlterTable schemaName tables.previous.name acc)

/-! ## MSSQL describer: default-value parsing

From `libs/sql-schema-describer/src/mssql.rs`: the regexes
`DEFAULT_NON_STRING = \(\((.*)\)\)`, `DEFAULT_STRING = \('(.*)'\)` and
`DEFAULT_DB_GEN = \((.*)\)` (lines 27–45), tried in that order on the
captured `column_default` string in `get_all_columns` (lines 230–237), with
an `expect` — a panic — when none of them matches. -/

/-- Indices at which the sequence `pat` occurs in `s`, in increasing order. -/
def subOccurrences (pat s : List Char) : List Nat :=
  (List.range (s.length + 1)).filter (fun i => pat.isPrefixOf (s.drop i))

/-- Leftmost-greedy matching of the regex `A(.*)B` for literal fragments `A`
and `B`: the match starts at the first occurrence of `A`, and the greedy
`(.*)` extends to the last occurrence of `B` beginning at or after the end of
that `A`. Returns the capture group. -/
def captureBetween (a b s : List Char) : Option (List Char) :=
  match (subOccurrences a s).head? with
  | none => none
  | some i =>
    match ((subOccurrences b s).filter (fun j => i + a.length ≤ j)).getLast? with
    | none => none
    | some j => some ((s.drop (i + a.length)).take (j - (i + a.length)))

/-- First capture of `\(\((.*)\)\)` — a non-string default such as `((1))`. -/
def DEFAULT_NON_STRING (s : String) : Option String :=
  (captureBetween "((".data "))".data s.data).map String.mk

/-- First capture of `\('(.*)'\)` — a string default such as `('abc')`. -/
def DEFAULT_STRING (s : String) : Option String :=
  (captureBetween "('".data "')".data s.data).map String.mk

/-- First capture of `\((.*)\)` — a database-generated default such as
`(current_timestamp)`. -/
def DEFAULT_DB_GEN (s : String) : Option String :=
  (captureBetween "(".data ")".data s.data).map String.mk

/-- The capture chain of `get_all_columns`:
`DEFAULT_NON_STRING.captures_iter(..).next().or_else(DEFAULT_STRING…).or_else(DEFAULT_DB_GEN…).map(cap[1]).expect(…)`.
The `expect` is modelled as a panic. -/
def mssqlDefaultCapture (default_string : String) : POr String :=
  match DEFAULT_NON_STRING default_string with
  | some c => .ok c
  | none =>
    match DEFAULT_STRING default_string with
    | some c => .ok c
    | none =>
      match DEFAULT_DB_GEN default_string with
      | some c => .ok c
      | none => .panicked ("Couldn't parse default value: `" ++ default_string ++ "`")

/-! ## PostgreSQL renderer: `AlterEnum`

From `sql_renderer/postgres_renderer.rs`, `render_alter_enum`, lines 41–132. -/

/-- `AlterEnum` from `sql_migration`. -/
structure AlterEnum where
  index : Pair Nat
  created_variants : List String
  dropped_variants : List String
deriving DecidableEq, Repr

/-- `walk_columns` over a schema: every column together with its table's
name, in schema order. -/
def walk_columns (schema : SqlSchema) : List (String × Column) :=
  schema.tables.flatMap (fun t => t.columns.map (fun c => (t.name, c)))

/-- `PostgresFlavour::render_alter_enum`: `ADD VALUE` statements when no
variant was dropped, otherwise the transactional rebuild (create `<next>_new`,
re-type every column using the enum through a text cast, rename old to
`<previous>_old`, rename new to the canonical name, drop old). -/
def postgresRenderAlterEnum (schemaName : String) (alter_enum : AlterEnum)
    (schemas : Pair SqlSchema) : List String :=
  if alter_enum.dropped_variants.isEmpty then
    alter_enum.created_variants.map (fun created_value =>
      "ALTER TYPE " ++ postgresIdent (schemas.enumsAt alter_enum.index).previous.name ++
        " ADD VALUE " ++ postgresString created_value)
  else
    let enums := schemas.enumsAt alter_enum.index
    let tmp_name := enums.next.name ++ "_new"
    let tmp_old_name := enums.previous.name ++ "_old"
    ["BEGIN",
     "CREATE TYPE " ++ postgresIdent tmp_name ++ " AS ENUM (" ++
       joinSep ", " (enums.next.values.map postgresString) ++ ")"]
    ++ ((walk_columns schemas.next).filter
          (fun tc => tc.2.column_type_family = ColumnTypeFamily.enumType enums.next.name)).map
        (fun tc =>
          "ALTER TABLE " ++ postgresIdent schemaName ++ "." ++ postgresIdent tc.1 ++
            " ALTER COLUMN " ++ postgresIdent tc.2.name ++ " TYPE " ++ postgresIdent tmp_name ++
            " USING (" ++ postgresIdent tc.2.name ++ "::text::" ++ postgresIdent tmp_name ++ ")")
    ++ ["ALTER TYPE " ++ postgresIdent enums.previous.name ++ " RENAME TO " ++
          postgresIdent tmp_old_name,
        "ALTER TYPE " ++ postgresIdent tmp_name ++ " RENAME TO " ++
          postgresIdent enums.next.name,
        "DROP TYPE " ++ postgresIdent tmp_old_name,
        "COMMIT"]

/-! ## Script assembly

From `sql_database_step_applier.rs`, `render_script`, lines 32–79. -/

/-- A destructive-change warning; `render_script` reads its `description`. -/
structure MigrationWarning where
  description : String
deriving DecidableEq, Repr

/-- An unexecutable-migration diagnostic; `render_script` reads its
`description`. -/
structure UnexecutableMigration where
  description : String
deriving DecidableEq, Repr

/-- `DestructiveChangeDiagnostics` from the `migration_connector` crate. -/
structure DestructiveChangeDiagnostics where
  warnings : List MigrationWarning := []
  unexecutable_migrations : List UnexecutableMigration := []
deriving DecidableEq, Repr

/-- Modelled from the spec: `DestructiveChangeDiagnostics::has_warnings`
(the crate defining it is not among the provided sources) — there is at
least one warning. -/
def DestructiveChangeDiagnostics.hasWarnings (d : DestructiveChangeDiagnostics) : Bool :=
  !d.warnings.isEmpty

/-- `render_script`. The migration's step list and the per-step
`render_raw_sql` dispatch through the flavour are the `steps`,
`render_raw_sql` and `description` parameters, mirroring the source's
`&database_migration.steps` and `renderer: &dyn SqlFlavour`;
`database_migration.is_empty()` is modelled from the spec as "the migration
has no steps", and `step.description()` (defined in `sql_migration.rs`,
which is not among the provided sources) is the `description` parameter. -/
def render_script {Step : Type} (render_raw_sql : Step → List String)
    (description : Step → String) (steps : List Step)
    (diagnostics : DestructiveChangeDiagnostics) : String :=
  if steps.isEmpty then "-- This is an empty migration."
  else
    (if diagnostics.hasWarnings || !diagnostics.unexecutable_migrations.isEmpty then
      "/*\n  Warnings:\n\n"
        ++ String.join (diagnostics.warnings.map (fun w => "  - " ++ w.description ++ "\n"))
        ++ String.join (diagnostics.unexecutable_migrations.map
            (fun u => "  - " ++ u.description ++ "\n"))
        ++ "\n*/\n"
     else "")
    ++ String.join (steps.map (fun step =>
        let statements := render_raw_sql step
        if statements.isEmpty then ""
        else "-- " ++ description step ++ "\n"
          ++ String.join (statements.map (fun s => s ++ ";\n"))))

/-- The enum steps of the step alphabet, used to exercise `render_script`
with the MySQL flavour (which emits them but renders them to no
statements). -/
inductive MysqlEnumStep where
  | createEnum (enum_index : Nat)
  | dropEnum (enum_index : Nat)
deriving DecidableEq, Repr

/-- `render_raw_sql` on the MySQL flavour for the enum steps:
`MysqlFlavour::render_create_enum` and `render_drop_enum` both return
`Vec::new()` (enums are defined on each column that uses them on MySQL). -/
def mysqlEnumStepRenderRawSql : MysqlEnumStep → List String
  | .createEnum _ => []
  | .dropEnum _ => []

/-- Modelled from the spec: `step.description()` — the step's name. -/
def MysqlEnumStep.describeStep : MysqlEnumStep → String
  | .createEnum _ => "CreateEnum"
  | .dropEnum _ => "DropEnum"

/-! ## SQLite renderer: `RedefineTables`

From `sql_renderer/sqlite_renderer.rs` and `libs/sql-ddl/src/sqlite.rs`. -/

/-- A `mapM` for `POr`, written as the plain recursion a Rust `for` loop with
pushes performs (panics abort the whole computation). -/
def porMapM {α β : Type} (f : α → POr β) : List α → POr (List β)
  | [] => .ok []
  | a :: rest => do
      let y ← f a
      let ys ← porMapM f rest
      pure (y :: ys)

/-- `sqlite_renderer::escape_quotes`: `'` → `''` (the regex replacement
`"'$0"`). -/
def escape_quotes (s : String) : String :=
  String.mk (escapeSingleQuotes s.data)

/-- `sqlite_renderer::render_column_type` (lines 214–229); the
`unreachable!` / `unimplemented!` arms are modelled as panics. -/
def sqliteRenderColumnType (t : ColumnType) : POr String :=
  match t.family with
  | .boolean => .ok "BOOLEAN"
  | .dateTime => .ok "DATETIME"
  | .float => .ok "REAL"
  | .decimal => .ok "REAL"
  | .int => .ok "INTEGER"
  | .bigInt => .ok "INTEGER"
  | .string => .ok "TEXT"
  | .binary => .ok "BLOB"
  | .json => .panicked "ColumnTypeFamily::Json on SQLite"
  | .enumType _ => .panicked "ColumnTypeFamily::Enum on SQLite"
  | .uuid => .panicked "ColumnTypeFamily::Uuid on SQLite"
  | .unsupported x => .panicked (x ++ " not handled yet")

/-- `sqlite_renderer::render_default` (lines 305–319); the `unreachable!`
arm (`NOW` on a non-datetime column) is modelled as a panic. Arms in the
source's order. -/
def sqliteRenderDefault (default : DefaultValue) (family : ColumnTypeFamily) : POr String :=
  match default.kind, family with
  | .dbGenerated val, _ => .ok val
  | .value (.string val), .string => .ok ("'" ++ escape_quotes val ++ "'")
  | .value (.enumVariant val), .enumType _ => .ok ("'" ++ escape_quotes val ++ "'")
  | .value (.bytes b), .binary => .ok ("'" ++ format_hex b ++ "'")
  | .now, .dateTime => .ok "CURRENT_TIMESTAMP"
  | .now, _ => .panicked "NOW default on non-datetime column"
  | .value val, .dateTime => .ok ("'" ++ val.display ++ "'")
  | .value val, _ => .ok val.display
  | .sequence _, _ => .ok ""

/-- Modelled from the spec: the walker's derived predicate *is single-column
primary key* (`walkers.rs` is not among the provided sources): the owning
table's primary key consists of exactly this column. -/
def Column.is_single_primary_key (table : Table) (column : Column) : Bool :=
  match table.primary_key with
  | some pk => pk.columns == [column.name]
  | none => false

/-- Modelled from the spec: the walker accessor `primary_key_column_names`. -/
def Table.primary_key_column_names (t : Table) : Option (List String) :=
  t.primary_key.map (fun pk => pk.columns)

/-- `sql_ddl::sqlite::Column`. -/
structure SqliteDdlColumn where
  name : String
  tpe : String
  not_null : Bool
  primary_key : Bool
  default : Option String
deriving DecidableEq, Repr

/-- `Display for sql_ddl::sqlite::Column`. -/
def sqliteDdlColumnToString (c : SqliteDdlColumn) : String :=
  "\"" ++ c.name ++ "\" " ++ c.tpe ++
    (if c.not_null then " NOT NULL" else "") ++
    (if c.primary_key then " PRIMARY KEY" else "") ++
    (match c.default with
     | some d => " DEFAULT " ++ d
     | none => "")

/-- `sql_ddl::sqlite::ForeignKey` (the describer's `ForeignKeyAction` is
carried over one-to-one by `render_create_table_as`). -/
structure SqliteDdlForeignKey where
  constrains : List String
  referenced_table : String
  referenced_columns : List String
  constraint_name : Option String
  on_delete : Option ForeignKeyAction
deriving DecidableEq, Repr

/-- `Display for sql_ddl::sqlite::ForeignKey`. -/
def sqliteDdlForeignKeyToString (fk : SqliteDdlForeignKey) : String :=
  (match fk.constraint_name with
   | some n => "CONSTRAINT \"" ++ n ++ "\" "
   | none => "") ++
  "FOREIGN KEY (" ++ joinSep ", " (fk.constrains.map sqliteIdent) ++
  ") REFERENCES \"" ++ fk.referenced_table ++ "\" (" ++
  joinSep ", " (fk.referenced_columns.map sqliteIdent) ++ ")" ++
  (match fk.on_delete with
   | none => ""
   | some .noAction => ""
   | some .restrict => " ON DELETE RESTRICT"
   | some .cascade => " ON DELETE CASCADE"
   | some .setNull => " ON DELETE SET NULL"
   | some .setDefault => " ON DELETE SET DEFAULT")

/-- `sql_ddl::sqlite::CreateTable`. -/
structure SqliteDdlCreateTable where
  table_name : String
  columns : List SqliteDdlColumn
  primary_key : Option (List String)
  foreign_keys : List SqliteDdlForeignKey
deriving DecidableEq, Repr

/-- Everything of `Display for CreateTable` after the opening
`CREATE TABLE "<name>" (\n`: the indented columns joined by `,\n`, the
optional table-level `PRIMARY KEY`, the foreign keys, and the closing
parenthesis (`SQL_INDENTATION` is four spaces). -/
def sqliteDdlCreateTableBody (ct : SqliteDdlCreateTable) : String :=
  joinSep ",\n" (ct.columns.map (fun c => "    " ++ sqliteDdlColumnToString c)) ++
  (match ct.primary_key with
   | some pk => ",\n\n    PRIMARY KEY (" ++ joinSep ", " (pk.map sqliteIdent) ++ ")"
   | none => "") ++
  String.join (ct.foreign_keys.map (fun fk => ",\n    " ++ sqliteDdlForeignKeyToString fk)) ++
  "\n)"

/-- `Display for sql_ddl::sqlite::CreateTable`. -/
def sqliteDdlCreateTableToString (ct : SqliteDdlCreateTable) : String :=
  "CREATE TABLE \"" ++ ct.table_name ++ "\" (\n" ++ sqliteDdlCreateTableBody ct

/-- `sqlite_renderer::render_column` (lines 292–303): a describer column as
a `sql_ddl` column. `DbGenerated` and `Sequence` defaults are filtered out
before rendering. -/
def sqliteRenderColumn (table : Table) (column : Column) : POr SqliteDdlColumn := do
  let tpe ← sqliteRenderColumnType column.tpe
  let dflt ←
    match column.default.filter
        (fun d => !(match d.kind with
                    | .dbGenerated _ => true
                    | .sequence _ => true
                    | _ => false)) with
    | some d => do
        let r ← sqliteRenderDefault d column.column_type_family
        pure (some r)
    | none => pure (none : Option String)
  pure { name := column.name, tpe := tpe,
         not_null := !column.arity.is_nullable,
         primary_key := column.is_single_primary_key table,
         default := dflt }

/-- `SqliteFlavour::render_create_table_as` (lines 118–150). -/
def sqliteRenderCreateTableAs (table : Table) (table_name : String) : POr String := do
  let columns ← porMapM (sqliteRenderColumn table) table.columns
  let foreign_keys := table.foreign_keys.map (fun fk =>
    { constrains := fk.columns,
      referenced_table := fk.referenced_table,
      referenced_columns := fk.referenced_columns,
      constraint_name := fk.constraint_name,
      on_delete := some fk.on_delete_action : SqliteDdlForeignKey })
  let primary_key :=
    if !(table.columns.any (fun col => col.is_single_primary_key table)) then
      table.primary_key_column_names
    else none
  pure (sqliteDdlCreateTableToString
    { table_name := table_name, columns := columns,
      primary_key := primary_key, foreign_keys := foreign_keys })

/-- `SqliteFlavour::render_create_index` (lines 22–38); the walker's
`index.table().name()` is the `tableName` argument. -/
def sqliteRenderCreateIndex (tableName : String) (index : Index) : String :=
  (match index.tpe with
   | .unique => "CREATE UNIQUE INDEX "
   | .normal => "CREATE INDEX ") ++
  sqliteIdent index.name ++ " ON " ++ sqliteIdent tableName ++ "(" ++
  joinSep ", " (index.columns.map sqliteIdent) ++ ")"

/-- `RedefineTable` from `sql_migration` (shape reconstructed from its uses
in the renderers): the paired table index and, per surviving column, the
paired column indexes, the change set and the optional type change. -/
structure RedefineTable where
  table_index : Pair Nat
  column_pairs : List (Pair Nat × ColumnChanges × Option ColumnTypeChange)
deriving DecidableEq, Repr

/-- The per-column source expression of the copying `INSERT`
(`copy_current_table_into_new_table`, lines 258–279): a column whose arity
changed, is required next and has a default next is copied as
`coalesce("<col>", <default>) AS "<col>"`; every other column is copied
verbatim. The `expect` is modelled as a panic. -/
def sqliteSourceColumnExpr (tables : Pair Table)
    (p : Pair Nat × ColumnChanges × Option ColumnTypeChange) : POr String :=
  let columns := tables.columnsAt p.1
  let col_became_required_with_a_default :=
    p.2.1.arityChanged && columns.next.arity.is_required && columns.next.default.isSome
  if col_became_required_with_a_default then
    match columns.next.default with
    | some d => do
        let rendered ← sqliteRenderDefault d columns.next.column_type_family
        pure ("coalesce(" ++ sqliteIdent columns.previous.name ++ ", " ++ rendered ++
          ") AS " ++ sqliteIdent columns.previous.name)
    | none => .panicked "default on required column with default"
  else .ok (sqliteIdent columns.previous.name)

/-- `copy_current_table_into_new_table` (lines 242–290): nothing when there
are no column pairs, otherwise the single `INSERT INTO "<tmp>" (…) SELECT …
FROM "<previous>"` statement. -/
def copy_current_table_into_new_table (redefine_table : RedefineTable)
    (tables : Pair Table) (temporary_table_name : String) : POr (List String) :=
  if redefine_table.column_pairs.isEmpty then .ok []
  else do
    let destination_columns := redefine_table.column_pairs.map
      (fun p => (tables.next.column_at p.1.next).name)
    let source_columns ← porMapM (sqliteSourceColumnExpr tables) redefine_table.column_pairs
    pure ["INSERT INTO \"" ++ temporary_table_name ++ "\" (" ++
      joinSep ", " (destination_columns.map sqliteIdent) ++ ") SELECT " ++
      joinSep ", " source_columns ++ " FROM \"" ++ tables.previous.name ++ "\""]

/-- The loop body of `render_redefine_tables` (lines 182–201) for one
redefined table: create the temporary `new_<name>` table, copy the data,
drop the old table, rename the temporary table, recreate the next table's
indexes. -/
def sqliteRedefineTableSteps (schemas : Pair SqlSchema) (redefine_table : RedefineTable) :
    POr (List String) := do
  let tables := schemas.tablesAt redefine_table.table_index
  let temporary_table_name := "new_" ++ tables.next.name
  let create_table ← sqliteRenderCreateTableAs tables.next temporary_table_name
  let copy ← copy_current_table_into_new_table redefine_table tables temporary_table_name
  pure ([create_table] ++ copy ++
    ["DROP TABLE \"" ++ tables.previous.name ++ "\"",
     "ALTER TABLE \"" ++ temporary_table_name ++ "\" RENAME TO \"" ++ tables.next.name ++ "\""] ++
    tables.next.indices.map (sqliteRenderCreateIndex tables.next.name))

/-- `SqliteFlavour::render_redefine_tables` (lines 176–207): the whole run,
bracketed by the foreign-key pragmas. -/
def renderRedefineTablesSqlite (tables : List RedefineTable) (schemas : Pair SqlSchema) :
    POr (List String) := do
  let body ← porMapM (sqliteRedefineTableSteps schemas) tables
  pure (["PRAGMA foreign_keys=OFF"] ++ body.flatten ++
    ["PRAGMA foreign_key_check", "PRAGMA foreign_keys=ON"])

/-- A concrete SQLite redefinition scenario (previous table): `Cat` with a
required `id` primary key and a nullable `name` without default, plus a
unique index. -/
def c1PrevTableExample : Table :=
  { name := "Cat",
    columns :=
      [{ name := "id", tpe := { family := .int, arity := .required } },
       { name := "name", tpe := { family := .string, arity := .nullable } }],
    primary_key := some { columns := ["id"] },
    indices := [{ name := "Cat_name_idx", columns := ["name"], tpe := .unique }] }

/-- The next table of the scenario: `name` became required with default
`'anon'`. -/
def c1NextTableExample : Table :=
  { name := "Cat",
    columns :=
      [{ name := "id", tpe := { family := .int, arity := .required } },
       { name := "name", tpe := { family := .string, arity := .required },
         default := some { kind := .value (.string "anon") } }],
    primary_key := some { columns := ["id"] },
    indices := [{ name := "Cat_name_idx", columns := ["name"], tpe := .unique }] }

/-- The schema pair of the SQLite redefinition scenario. -/
def c1SchemasExample : Pair SqlSchema :=
  ⟨{ tables := [c1PrevTableExample] }, { tables := [c1NextTableExample] }⟩

/-- The `RedefineTable` step of the scenario: both columns survive, `name`
with an arity change. -/
def c1RedefineExample : RedefineTable :=
  { table_index := ⟨0, 0⟩,
    column_pairs := [(⟨0, 0⟩, {}, none), (⟨1, 1⟩, { arityChanged := true }, none)] }

/-- The statement sequence the SQLite renderer produces for the scenario. -/
def c1ResultExample : List String :=
  ["PRAGMA foreign_keys=OFF",
   "CREATE TABLE \"new_Cat\" (\n    \"id\" INTEGER NOT NULL PRIMARY KEY,\n    \"name\" TEXT NOT NULL DEFAULT 'anon'\n)",
   "INSERT INTO \"new_Cat\" (\"id\", \"name\") SELECT \"id\", coalesce(\"name\", 'anon') AS \"name\" FROM \"Cat\"",
   "DROP TABLE \"Cat\"",
   "ALTER TABLE \"new_Cat\" RENAME TO \"Cat\"",
   "CREATE UNIQUE INDEX \"Cat_name_idx\" ON \"Cat\"(\"name\")",
   "PRAGMA foreign_key_check",
   "PRAGMA foreign_keys=ON"]

/-- The spec's MSSQL default-change scenario: the `AlterColumn` step for
column `n` of `Cat` whose only change is the default. -/
def c9AlterColumnExample : AlterColumn :=
  { column_index := ⟨0, 0⟩, changes := { defaultChanged := true }, type_change := none }

/-- The `AlterTable` step wrapping `c9AlterColumnExample`. -/
def c9AlterTableExample : AlterTable :=
  { table_index := ⟨0, 0⟩, changes := [TableChange.alterColumn c9AlterColumnExample] }

/-- The schema pair for the spec's MSSQL default-change scenario: `Cat.n` has
`DEFAULT 0` under constraint `DF__Cat__n` before, `DEFAULT 1` after. -/
def c9SchemasExample : Pair SqlSchema :=
  ⟨{ tables :=
       [{ name := "Cat",
          columns :=
            [{ name := "n",
               tpe := { family := .int, arity := .required },
               default := some { kind := .value (.int 0),
                                 constraint_name := some "DF__Cat__n" } }] }] },
   { tables :=
       [{ name := "Cat",
          columns :=
            [{ name := "n",
               tpe := { family := .int, arity := .required },
               default := some { kind := .value (.int 1),
                                 constraint_name := some "DF__Cat__n" } }] }] }⟩

/-! ## Theorems for claims C3, C6, C8 -/

/-- **C3.** The claim says describing never panics: unknown foreign-key
action codes should surface as `DescriberError::Catalog`. The code instead
panics: at the concrete catalog value 4 the `match` in `get_foreign_keys`
hits the `panic!` arm. -/
theorem mssql_fk_action_panics_on_unknown_code :
    mssqlParseReferentialAction 4 =
      POr.panicked "Unrecognized on delete action '4'" := by
  decide

/-- **C3** (mapping part, and what actually happens elsewhere): 0, 1, 2, 3
decode to no-action, cascade, set-null, set-default, and every other integer
makes `get_foreign_keys` panic with the source's message. -/
theorem mssql_fk_action_decoding (s : Int) :
    (s = 0 → mssqlParseReferentialAction s = .ok .noAction) ∧
    (s = 1 → mssqlParseReferentialAction s = .ok .cascade) ∧
    (s = 2 → mssqlParseReferentialAction s = .ok .setNull) ∧
    (s = 3 → mssqlParseReferentialAction s = .ok .setDefault) ∧
    (s ≠ 0 → s ≠ 1 → s ≠ 2 → s ≠ 3 →
      mssqlParseReferentialAction s =
        .panicked ("Unrecognized on delete action '" ++ toString s ++ "'")) := by
  refine ⟨?_, ?_, ?_, ?_, ?_⟩ <;> intros <;> simp_all [mssqlParseReferentialAction]

/-- Witness for `mssql_fk_action_decoding` at the concrete code 2. -/
theorem mssql_fk_action_decoding_witness :
    mssqlParseReferentialAction 2 = .ok .setNull :=
  (mssql_fk_action_decoding 2).2.2.1 rfl

/-- **C6 counterexample.** The claim classifies every pair that is neither
identical, nor `* → string`, nor `string → int` as `RiskyCast`; but the code
classifies `string → float` (and `datetime → float`) as `NotCastable`. -/
theorem mssql_type_change_string_to_float :
    mssqlColumnTypeChange .string .float = some .notCastable ∧
    mssqlColumnTypeChange .string .float ≠ some .riskyCast := by
  decide

/-- **C6 (amended).** Identical families are "no change"; a change to the
string family is a safe cast; `string → int`, `string → float` and
`datetime → float` are not castable; every remaining pair is a risky cast. -/
theorem mssql_type_change_classification (previous next : ColumnTypeFamily) :
    (previous = next → mssqlColumnTypeChange previous next = none) ∧
    (previous ≠ next → next = .string →
      mssqlColumnTypeChange previous next = some .safeCast) ∧
    (mssqlColumnTypeChange .string .int = some .notCastable) ∧
    (mssqlColumnTypeChange .dateTime .float = some .notCastable) ∧
    (mssqlColumnTypeChange .string .float = some .notCastable) ∧
    (previous ≠ next → next ≠ .string →
      ¬(previous = .string ∧ next = .int) →
      ¬(previous = .dateTime ∧ next = .float) →
      ¬(previous = .string ∧ next = .float) →
      mssqlColumnTypeChange previous next = some .riskyCast) := by
  refine ⟨?_, ?_, by decide, by decide, by decide, ?_⟩
  · intro h; simp [mssqlColumnTypeChange, h]
  · rintro hne rfl
    cases previous <;> simp_all [mssqlColumnTypeChange]
  · intro hne hns h1 h2 h3
    cases previous <;> cases next <;> simp_all [mssqlColumnTypeChange]

/-- Witness for `mssql_type_change_classification`: `int → float` is a risky
cast. -/
theorem mssql_type_change_classification_witness :
    mssqlColumnTypeChange .int .float = some .riskyCast :=
  (mssql_type_change_classification .int .float).2.2.2.2.2
    (by decide) (by decide) (by decide) (by decide) (by decide)

/-- **C8.** `default_can_be_rendered` is false for an absent default and for
a `Sequence` default, true for any `Value` default and for `Now`, and true
for a `DbGenerated` default exactly when its expression is non-empty. -/
theorem mssql_default_can_be_rendered_characterisation :
    (default_can_be_rendered none = false) ∧
    (∀ (v : PrismaValue) (c : Option String),
      default_can_be_rendered (some { kind := .value v, constraint_name := c }) = true) ∧
    (∀ (c : Option String),
      default_can_be_rendered (some { kind := .now, constraint_name := c }) = true) ∧
    (∀ (s : String) (c : Option String),
      default_can_be_rendered (some { kind := .sequence s, constraint_name := c }) = false) ∧
    (∀ (expr : String) (c : Option String),
      default_can_be_rendered (some { kind := .dbGenerated expr, constraint_name := c }) = true
        ↔ expr ≠ "") := by
  refine ⟨rfl, fun v c => rfl, fun c => rfl, fun s c => rfl, fun expr c => ?_⟩
  simp [default_can_be_rendered, Bool.eq_false_iff, String.isEmpty_iff]

/-! ## Theorems for claims C7, C10, C9 -/

/-- **C7 counterexample.** The claim says the unexecutable diagnostic is
recorded exactly when the column has no usable default (and the table is
non-empty); but `check_alter_column` on MSSQL pushes
`MadeOptionalFieldRequired` for every arity change to required that is not a
pure default change — here despite a usable `Value` default on the next
column. -/
theorem mssql_check_alter_column_flags_despite_usable_default :
    mssqlCheckAlterColumn
      { column_index := ⟨0, 0⟩,
        changes := { defaultChanged := false, arityChanged := true },
        type_change := none }
      ⟨{ tableName := "Cat", col := { name := "n", tpe := { family := .int, arity := .nullable } } },
       { tableName := "Cat",
         col := { name := "n",
                  tpe := { family := .int, arity := .required },
                  default := some { kind := .value (.int 3) } } }⟩
      = [.unexecutable (.madeOptionalFieldRequired "n" "Cat")]
    ∧ default_can_be_rendered (some { kind := DefaultKind.value (.int 3) }) = true := by
  decide

/-- **C7 (amended).** On MSSQL an `AlterColumn` records an unexecutable
diagnostic exactly when the change set is not only a default change, includes
an arity change, and the next column is required — independently of the
column's default and of table contents. -/
theorem mssql_check_alter_column_unexecutable_iff
    (alter_column : AlterColumn) (columns : Pair ColumnW) :
    (∃ u, PlanEntry.unexecutable u ∈ mssqlCheckAlterColumn alter_column columns) ↔
      (alter_column.changes.onlyDefaultChanged = false ∧
        alter_column.changes.arityChanged = true ∧
        columns.next.col.arity.is_required = true) := by
  unfold mssqlCheckAlterColumn
  split_ifs with h1 h2 h3 <;> simp_all

/-- **C10.** `expand_mssql_alter_column` unwraps the previous column's
default and that default's constraint name: whenever the default changed but
the previous column has no default, or its default carries no constraint
name, the expansion (and hence rendering) panics. -/
theorem expand_mssql_alter_column_panics_without_named_previous_default
    (columns : Pair Column) (changes : ColumnChanges)
    (hdefault : changes.defaultChanged = true)
    (h : columns.previous.default = none ∨
      ∃ d, columns.previous.default = some d ∧ d.constraint_name = none) :
    (expand_mssql_alter_column columns changes).isPanicked = true := by
  unfold expand_mssql_alter_column
  rw [hdefault]
  rcases h with h | ⟨d, hd, hc⟩
  · simp [h, POr.isPanicked]
  · simp [hd, hc, POr.isPanicked]

/-- Witness for `expand_mssql_alter_column_panics_without_named_previous_default`:
a default newly added to a column with no previous default panics during
expansion. -/
theorem expand_mssql_alter_column_panics_witness :
    (expand_mssql_alter_column
      ⟨{ name := "n", tpe := { family := .int, arity := .required } },
       { name := "n", tpe := { family := .int, arity := .required },
         default := some { kind := .value (.int 1) } }⟩
      { defaultChanged := true }).isPanicked = true :=
  expand_mssql_alter_column_panics_without_named_previous_default _ _ rfl (Or.inl rfl)

/-- **C9.** For an `AlterColumn` on MSSQL where only the default changed, the
rendered statements are exactly: first `ALTER TABLE … DROP CONSTRAINT`
naming the previous default's constraint, then `ALTER TABLE … ADD CONSTRAINT
DF__<table>__<column> DEFAULT <value> FOR <column>` — with no column
modification in between (the assembly emits dropped constraints before all
column modifications and added constraints after them). -/
theorem mssql_alter_column_default_change_statements
    (schemaName : String) (schemas : Pair SqlSchema) (alter_table : AlterTable)
    (alter_column : AlterColumn) (prevDefault nextDefault : DefaultValue)
    (constraintName rendered : String)
    (hchanges : alter_table.changes = [TableChange.alterColumn alter_column])
    (honly : alter_column.changes.onlyDefaultChanged = true)
    (hprev : ((schemas.tablesAt alter_table.table_index).columnsAt
        alter_column.column_index).previous.default = some prevDefault)
    (hname : prevDefault.constraint_name = some constraintName)
    (hnext : ((schemas.tablesAt alter_table.table_index).columnsAt
        alter_column.column_index).next.default = some nextDefault)
    (hrender : mssqlRenderDefault nextDefault
        ((schemas.tablesAt alter_table.table_index).columnsAt
          alter_column.column_index).next.tpe.family = .ok rendered) :
    mssqlRenderAlterTable schemaName alter_table schemas = .ok
      ["ALTER TABLE " ++
          mssqlQuoteWithSchema schemaName (schemas.tablesAt alter_table.table_index).previous.name ++
          " DROP CONSTRAINT " ++ constraintName,
       "ALTER TABLE " ++
          mssqlQuoteWithSchema schemaName (schemas.tablesAt alter_table.table_index).previous.name ++
          " ADD " ++
          ("CONSTRAINT DF__" ++ (schemas.tablesAt alter_table.table_index).next.name ++
            "__" ++ ((schemas.tablesAt alter_table.table_index).columnsAt
              alter_column.column_index).next.name ++
            " DEFAULT " ++ rendered ++ " FOR " ++
            ((schemas.tablesAt alter_table.table_index).columnsAt
              alter_column.column_index).next.name)] := by
  have hdefault : alter_column.changes.defaultChanged = true := by
    have h := honly
    unfold ColumnChanges.onlyDefaultChanged at h
    exact (Bool.and_eq_true _ _ |>.mp
      ((Bool.and_eq_true _ _ |>.mp
        ((Bool.and_eq_true _ _ |>.mp
          ((Bool.and_eq_true _ _ |>.mp h).1)).1)).1)).1
  unfold mssqlRenderAlterTable
  rw [hchanges]
  unfold mssqlTableChangeIntoAcc expand_mssql_alter_column mssqlAlterColumnIntoAcc
  simp [hdefault, hprev, hname, honly, hnext, hrender, List.foldlM, bind, POr.bind]
  unfold mssqlAssembleAlterTable
  simp [joinSep, Pure.pure, String.append_assoc]

/-- Witness for `mssql_alter_column_default_change_statements`: the spec's
MSSQL scenario — column `n` of `Cat`, `DEFAULT 0` under constraint
`DF__Cat__n` changing to `DEFAULT 1`. -/
theorem mssql_alter_column_default_change_statements_witness :
    mssqlRenderAlterTable "dbo" c9AlterTableExample c9SchemasExample
      = .ok
      ["ALTER TABLE [dbo].[Cat] DROP CONSTRAINT DF__Cat__n",
       "ALTER TABLE [dbo].[Cat] ADD CONSTRAINT DF__Cat__n DEFAULT 1 FOR n"] := by
  have h := mssql_alter_column_default_change_statements "dbo" c9SchemasExample
    c9AlterTableExample c9AlterColumnExample
    { kind := .value (.int 0), constraint_name := some "DF__Cat__n" }
    { kind := .value (.int 1), constraint_name := some "DF__Cat__n" }
    "DF__Cat__n" "1" rfl rfl rfl rfl rfl rfl
  exact h

/-! ## Theorems for claim C4 -/

/-- **C4 counterexample.** The claim says a default string matching none of
the three patterns falls back to `DbGenerated(raw)`; the code instead panics
in the `expect` — e.g. on the unparenthesised string `abc`. -/
theorem mssql_default_parse_panics_on_unmatched :
    mssqlDefaultCapture "abc" =
      POr.panicked "Couldn't parse default value: `abc`" := by
  decide

/-- **C4 (amended).** Parsing tries the more specific patterns first:
the double-parenthesised capture wins whenever it matches, then the string
pattern, then the generic parenthesised expression; a default string matching
none of the three patterns makes `get_all_columns` panic (the `expect`),
rather than falling back to `DbGenerated`. -/
theorem mssql_default_parsing_order (s : String) :
    (∀ c, DEFAULT_NON_STRING s = some c → mssqlDefaultCapture s = .ok c) ∧
    (DEFAULT_NON_STRING s = none →
      ∀ c, DEFAULT_STRING s = some c → mssqlDefaultCapture s = .ok c) ∧
    (DEFAULT_NON_STRING s = none → DEFAULT_STRING s = none →
      ∀ c, DEFAULT_DB_GEN s = some c → mssqlDefaultCapture s = .ok c) ∧
    (DEFAULT_NON_STRING s = none → DEFAULT_STRING s = none → DEFAULT_DB_GEN s = none →
      mssqlDefaultCapture s =
        .panicked ("Couldn't parse default value: `" ++ s ++ "`")) := by
  unfold mssqlDefaultCapture
  refine ⟨?_, ?_, ?_, ?_⟩ <;> intros <;> simp_all

/-- Witness for `mssql_default_parsing_order`: `((1))` parses through the
non-string pattern with capture `1` (even though the generic pattern also
matches it). -/
theorem mssql_default_parsing_order_witness :
    mssqlDefaultCapture "((1))" = .ok "1" ∧ DEFAULT_DB_GEN "((1))" = some "(1)" :=
  ⟨(mssql_default_parsing_order "((1))").1 "1" (by decide), by decide⟩

/-! ## Theorems for claim C2 -/

/-- **C2.** `AlterEnum` on PostgreSQL renders, when no variant was dropped,
one `ALTER TYPE "<enum>" ADD VALUE '<variant>'` statement per created
variant; when variants were dropped, the transactional rebuild: `BEGIN`,
`CREATE TYPE "<name>_new"` with the next variants, an
`ALTER TABLE "<schema>"."<table>" ALTER COLUMN "<col>" TYPE "<name>_new"
USING ("<col>"::text::"<name>_new")` for every column using the enum, the
rename of the old enum to `<name>_old`, the rename of the new enum to the
canonical name, `DROP TYPE` of the old enum, and `COMMIT`. -/
theorem postgres_alter_enum_rendering (schemaName : String) (alter_enum : AlterEnum)
    (schemas : Pair SqlSchema) :
    (alter_enum.dropped_variants = [] →
      postgresRenderAlterEnum schemaName alter_enum schemas =
        alter_enum.created_variants.map (fun v =>
          "ALTER TYPE " ++ ("\"" ++ (schemas.enumsAt alter_enum.index).previous.name ++ "\"") ++
            " ADD VALUE " ++ ("'" ++ v ++ "'"))) ∧
    (alter_enum.dropped_variants ≠ [] →
      postgresRenderAlterEnum schemaName alter_enum schemas =
        ["BEGIN",
         "CREATE TYPE " ++ ("\"" ++ ((schemas.enumsAt alter_enum.index).next.name ++ "_new") ++ "\"") ++
           " AS ENUM (" ++
           joinSep ", " ((schemas.enumsAt alter_enum.index).next.values.map
             (fun v => "'" ++ v ++ "'")) ++ ")"]
        ++ ((walk_columns schemas.next).filter
              (fun tc => tc.2.column_type_family =
                ColumnTypeFamily.enumType (schemas.enumsAt alter_enum.index).next.name)).map
            (fun tc =>
              "ALTER TABLE " ++ ("\"" ++ schemaName ++ "\"") ++ "." ++ ("\"" ++ tc.1 ++ "\"") ++
                " ALTER COLUMN " ++ ("\"" ++ tc.2.name ++ "\"") ++ " TYPE " ++
                ("\"" ++ ((schemas.enumsAt alter_enum.index).next.name ++ "_new") ++ "\"") ++
                " USING (" ++ ("\"" ++ tc.2.name ++ "\"") ++ "::text::" ++
                ("\"" ++ ((schemas.enumsAt alter_enum.index).next.name ++ "_new") ++ "\"") ++ ")")
        ++ ["ALTER TYPE " ++ ("\"" ++ (schemas.enumsAt alter_enum.index).previous.name ++ "\"") ++
              " RENAME TO " ++
              ("\"" ++ ((schemas.enumsAt alter_enum.index).previous.name ++ "_old") ++ "\""),
            "ALTER TYPE " ++
              ("\"" ++ ((schemas.enumsAt alter_enum.index).next.name ++ "_new") ++ "\"") ++
              " RENAME TO " ++ ("\"" ++ (schemas.enumsAt alter_enum.index).next.name ++ "\""),
            "DROP TYPE " ++
              ("\"" ++ ((schemas.enumsAt alter_enum.index).previous.name ++ "_old") ++ "\""),
            "COMMIT"]) := by
  constructor
  · intro h
    simp [postgresRenderAlterEnum, h, postgresIdent, postgresString]
  · intro h
    have hne : alter_enum.dropped_variants.isEmpty = false := by
      cases hd : alter_enum.dropped_variants with
      | nil => exact absurd hd h
      | cons a l => simp [hd]
    have hps : postgresString = fun v => "'" ++ v ++ "'" := rfl
    simp [postgresRenderAlterEnum, hne, postgresIdent, hps]

/-- Witness for `postgres_alter_enum_rendering`: the spec's scenario — enum
`Color{Red,Blue}` gaining `Green` renders exactly
`ALTER TYPE "Color" ADD VALUE 'Green'`. -/
theorem postgres_alter_enum_rendering_witness :
    postgresRenderAlterEnum "public"
      { index := ⟨0, 0⟩, created_variants := ["Green"], dropped_variants := [] }
      ⟨{ enums := [{ name := "Color", values := ["Red", "Blue"] }] },
       { enums := [{ name := "Color", values := ["Red", "Blue", "Green"] }] }⟩
      = ["ALTER TYPE \"Color\" ADD VALUE 'Green'"] := by
  have h := (postgres_alter_enum_rendering "public"
    { index := ⟨0, 0⟩, created_variants := ["Green"], dropped_variants := [] }
    ⟨{ enums := [{ name := "Color", values := ["Red", "Blue"] }] },
     { enums := [{ name := "Color", values := ["Red", "Blue", "Green"] }] }⟩).1 rfl
  exact h

/-! ## Theorems for claim C5 -/

/-- **C5 counterexample.** A non-empty migration whose only step renders no
statements (a `CreateEnum` on MySQL) produces an empty script: contrary to
the claim, there is no `-- <step description>` line for that step. -/
theorem render_script_skips_statementless_steps :
    render_script mysqlEnumStepRenderRawSql MysqlEnumStep.describeStep
      [MysqlEnumStep.createEnum 0] {} = "" := by
  decide

/-- **C5 (amended).** A migration with no steps renders as the single line
`-- This is an empty migration.`; a non-empty migration renders the warning
comment block (present exactly when there is at least one warning or
unexecutable, listing every warning then every unexecutable), followed, for
each step **whose rendering has at least one statement**, by a
`-- <step description>` line and the step's statements each terminated with
`;` — steps rendering no statements are omitted entirely. -/
theorem render_script_structure {Step : Type} (render_raw_sql : Step → List String)
    (description : Step → String) (steps : List Step)
    (diagnostics : DestructiveChangeDiagnostics) :
    (steps = [] →
      render_script render_raw_sql description steps diagnostics =
        "-- This is an empty migration.") ∧
    (steps ≠ [] →
      render_script render_raw_sql description steps diagnostics =
        (if diagnostics.warnings ≠ [] ∨ diagnostics.unexecutable_migrations ≠ [] then
          "/*\n  Warnings:\n\n"
            ++ String.join (diagnostics.warnings.map (fun w => "  - " ++ w.description ++ "\n"))
            ++ String.join (diagnostics.unexecutable_migrations.map
                (fun u => "  - " ++ u.description ++ "\n"))
            ++ "\n*/\n"
         else "")
        ++ String.join (steps.map (fun step =>
            if render_raw_sql step = [] then ""
            else "-- " ++ description step ++ "\n"
              ++ String.join ((render_raw_sql step).map (fun s => s ++ ";\n"))))) := by
  constructor
  · intro h
    simp [render_script, h]
  · intro h
    have hne : steps.isEmpty = false := by
      cases hd : steps with
      | nil => exact absurd hd h
      | cons a l => simp [hd]
    have hcond : (diagnostics.hasWarnings || !diagnostics.unexecutable_migrations.isEmpty) =
        decide (diagnostics.warnings ≠ [] ∨ diagnostics.unexecutable_migrations ≠ []) := by
      cases hw : diagnostics.warnings <;> cases hu : diagnostics.unexecutable_migrations <;>
        simp [DestructiveChangeDiagnostics.hasWarnings, hw, hu]
    unfold render_script
    rw [hne]
    simp only [Bool.false_eq_true, if_false, hcond]
    congr 1
    · by_cases hp : diagnostics.warnings ≠ [] ∨ diagnostics.unexecutable_migrations ≠ [] <;>
        simp [hp]
    · apply congrArg
      apply List.map_congr_left
      intro step _
      by_cases hs : render_raw_sql step = [] <;> simp [hs]

/-- Witness for `render_script_structure`: a migration with one warning and
one statement-less step renders the warning block alone. -/
theorem render_script_structure_witness :
    render_script mysqlEnumStepRenderRawSql MysqlEnumStep.describeStep
      [MysqlEnumStep.dropEnum 0]
      { warnings := [{ description := "You are about to drop the enum." }] }
      = "/*\n  Warnings:\n\n  - You are about to drop the enum.\n\n*/\n" := by
  have h := (render_script_structure mysqlEnumStepRenderRawSql MysqlEnumStep.describeStep
    [MysqlEnumStep.dropEnum 0]
    { warnings := [{ description := "You are about to drop the enum." }] }).2 (by decide)
  rw [h]
  decide

/-! ## Theorems for claim C1 -/

/-- A successful `porMapM` produces one output per input. -/
theorem porMapM_ok_length {α β : Type} (f : α → POr β) :
    ∀ (l : List α) (b : List β), porMapM f l = POr.ok b → b.length = l.length := by
  intro l
  induction l with
  | nil => intro b h; simp [porMapM] at h; simp [← h]
  | cons a rest ih =>
      intro b h
      cases hfa : f a with
      | panicked m => simp [porMapM, hfa, bind, POr.bind] at h
      | ok y =>
          cases hrest : porMapM f rest with
          | panicked m => simp [porMapM, hfa, hrest, bind, POr.bind] at h
          | ok ys =>
              simp [porMapM, hfa, hrest, bind, POr.bind, pure] at h
              simp [← h, ih ys hrest]

/-- Every input of a successful `porMapM` contributes a successful output at
its position. -/
theorem porMapM_ok_mem {α β : Type} (f : α → POr β) :
    ∀ (l : List α) (b : List β), porMapM f l = POr.ok b →
      ∀ a ∈ l, ∃ y b1 b2, f a = POr.ok y ∧ b = b1 ++ y :: b2 := by
  intro l
  induction l with
  | nil => intro b _ a ha; cases ha
  | cons hd rest ih =>
      intro b h a ha
      cases hfa : f hd with
      | panicked m => simp [porMapM, hfa, bind, POr.bind] at h
      | ok y =>
          cases hrest : porMapM f rest with
          | panicked m => simp [porMapM, hfa, hrest, bind, POr.bind] at h
          | ok ys =>
              simp [porMapM, hfa, hrest, bind, POr.bind, pure] at h
              rcases List.mem_cons.mp ha with rfl | hmem
              · exact ⟨y, [], ys, hfa, by simp [← h]⟩
              · obtain ⟨y2, b1, b2, hy2, hb⟩ := ih ys hrest a hmem
                exact ⟨y2, y :: b1, b2, hy2, by simp [← h, hb]⟩

/-- Position-wise content of a successful `porMapM`. -/
theorem porMapM_ok_get {α β : Type} (f : α → POr β) :
    ∀ (l : List α) (b : List β), porMapM f l = POr.ok b →
      ∀ i (hi : i < l.length),
        ∃ y, f (l.get ⟨i, hi⟩) = POr.ok y ∧ b.get? i = some y := by
  intro l
  induction l with
  | nil => intro b _ i hi; cases hi
  | cons hd rest ih =>
      intro b h i hi
      cases hfa : f hd with
      | panicked m => simp [porMapM, hfa, bind, POr.bind] at h
      | ok y =>
          cases hrest : porMapM f rest with
          | panicked m => simp [porMapM, hfa, hrest, bind, POr.bind] at h
          | ok ys =>
              simp [porMapM, hfa, hrest, bind, POr.bind, pure] at h
              subst h
              cases i with
              | zero => exact ⟨y, hfa, rfl⟩
              | succ j =>
                  obtain ⟨y2, hy2, hget⟩ := ih ys hrest j (Nat.lt_of_succ_lt_succ hi)
                  exact ⟨y2, hy2, hget⟩

/-- A successfully rendered `CREATE TABLE` statement for `table_name` begins
with `CREATE TABLE "<table_name>" (`. -/
theorem sqliteRenderCreateTableAs_shape (t : Table) (name r : String)
    (h : sqliteRenderCreateTableAs t name = POr.ok r) :
    ∃ rest, r = "CREATE TABLE \"" ++ name ++ "\" (\n" ++ rest := by
  unfold sqliteRenderCreateTableAs at h
  cases hm : porMapM (sqliteRenderColumn t) t.columns with
  | panicked m => rw [hm] at h; simp [bind, POr.bind] at h
  | ok cols =>
      rw [hm] at h
      simp only [bind, POr.bind, pure] at h
      refine ⟨sqliteDdlCreateTableBody
        { table_name := name, columns := cols,
          primary_key := if !(t.columns.any (fun col => col.is_single_primary_key t)) then
            t.primary_key_column_names else none,
          foreign_keys := t.foreign_keys.map (fun fk =>
            { constrains := fk.columns,
              referenced_table := fk.referenced_table,
              referenced_columns := fk.referenced_columns,
              constraint_name := fk.constraint_name,
              on_delete := some fk.on_delete_action }) }, ?_⟩
      have h2 := POr.ok.inj h
      rw [← h2]
      simp [sqliteDdlCreateTableToString, String.append_assoc]

/-- **C1.** Every successful `RedefineTables` rendering on SQLite starts with
`PRAGMA foreign_keys=OFF` and ends with `PRAGMA foreign_key_check` followed
by `PRAGMA foreign_keys=ON`; and for each redefined table it contains, in
order and consecutively: a `CREATE TABLE` for the temporary table
`new_<table name>`, the copying `INSERT` (when the table has surviving
column pairs) in which a column whose arity changed to required and that has
a default is copied as `coalesce("<column>", <default>) AS "<column>"`, a
`DROP TABLE` of the old table, the `ALTER TABLE … RENAME TO` of the
temporary table to the canonical name, and a `CREATE INDEX` for each index
of the next table. -/
theorem sqlite_redefine_tables_protocol
    (ts : List RedefineTable) (schemas : Pair SqlSchema) (result : List String)
    (h : renderRedefineTablesSqlite ts schemas = POr.ok result) :
    result.head? = some "PRAGMA foreign_keys=OFF" ∧
    (∃ body, result =
      "PRAGMA foreign_keys=OFF" ::
        (body ++ ["PRAGMA foreign_key_check", "PRAGMA foreign_keys=ON"])) ∧
    (∀ rt ∈ ts,
      ∃ (pre post copy : List String) (create_table : String),
        result = pre ++ ([create_table] ++ copy ++
            ["DROP TABLE \"" ++ (schemas.tablesAt rt.table_index).previous.name ++ "\"",
             "ALTER TABLE \"" ++ ("new_" ++ (schemas.tablesAt rt.table_index).next.name) ++
               "\" RENAME TO \"" ++ (schemas.tablesAt rt.table_index).next.name ++ "\""] ++
            (schemas.tablesAt rt.table_index).next.indices.map
              (sqliteRenderCreateIndex (schemas.tablesAt rt.table_index).next.name)) ++ post ∧
        (∃ rest, create_table =
          "CREATE TABLE \"" ++ ("new_" ++ (schemas.tablesAt rt.table_index).next.name) ++
            "\" (\n" ++ rest) ∧
        (rt.column_pairs = [] → copy = []) ∧
        (rt.column_pairs ≠ [] → ∃ srcs : List String,
          porMapM (sqliteSourceColumnExpr (schemas.tablesAt rt.table_index))
              rt.column_pairs = POr.ok srcs ∧
          copy = ["INSERT INTO \"" ++ ("new_" ++ (schemas.tablesAt rt.table_index).next.name) ++
            "\" (" ++ joinSep ", " ((rt.column_pairs.map
              (fun p => ((schemas.tablesAt rt.table_index).next.column_at p.1.next).name)).map
                sqliteIdent) ++
            ") SELECT " ++ joinSep ", " srcs ++ " FROM \"" ++
            (schemas.tablesAt rt.table_index).previous.name ++ "\""] ∧
          srcs.length = rt.column_pairs.length ∧
          ∀ i (hi : i < rt.column_pairs.length),
            (((rt.column_pairs.get ⟨i, hi⟩).2.1.arityChanged &&
              ((schemas.tablesAt rt.table_index).columnsAt
                (rt.column_pairs.get ⟨i, hi⟩).1).next.arity.is_required &&
              ((schemas.tablesAt rt.table_index).columnsAt
                (rt.column_pairs.get ⟨i, hi⟩).1).next.default.isSome) = true →
            ∃ d rendered,
              ((schemas.tablesAt rt.table_index).columnsAt
                (rt.column_pairs.get ⟨i, hi⟩).1).next.default = some d ∧
              sqliteRenderDefault d
                ((schemas.tablesAt rt.table_index).columnsAt
                  (rt.column_pairs.get ⟨i, hi⟩).1).next.column_type_family = POr.ok rendered ∧
              srcs.get? i = some ("coalesce(" ++
                sqliteIdent ((schemas.tablesAt rt.table_index).columnsAt
                  (rt.column_pairs.get ⟨i, hi⟩).1).previous.name ++
                ", " ++ rendered ++ ") AS " ++
                sqliteIdent ((schemas.tablesAt rt.table_index).columnsAt
                  (rt.column_pairs.get ⟨i, hi⟩).1).previous.name)))) := by
  obtain ⟨segs, hsegs, hres⟩ :
      ∃ segs, porMapM (sqliteRedefineTableSteps schemas) ts = POr.ok segs ∧
        result = "PRAGMA foreign_keys=OFF" ::
          (segs.flatten ++ ["PRAGMA foreign_key_check", "PRAGMA foreign_keys=ON"]) := by
    unfold renderRedefineTablesSqlite at h
    cases hm : porMapM (sqliteRedefineTableSteps schemas) ts with
    | panicked m => rw [hm] at h; simp [bind, POr.bind] at h
    | ok segs =>
        rw [hm] at h
        simp only [bind, POr.bind, pure] at h
        refine ⟨segs, rfl, ?_⟩
        cases h
        rfl
  subst hres
  refine ⟨rfl, ⟨segs.flatten, rfl⟩, ?_⟩
  intro rt hrt
  obtain ⟨seg, b1, b2, hseg, hb⟩ := porMapM_ok_mem _ ts segs hsegs rt hrt
  unfold sqliteRedefineTableSteps at hseg
  simp only [bind, POr.bind] at hseg
  cases hct : sqliteRenderCreateTableAs (schemas.tablesAt rt.table_index).next
      ("new_" ++ (schemas.tablesAt rt.table_index).next.name) with
  | panicked m => rw [hct] at hseg; simp [bind, POr.bind] at hseg
  | ok create_table =>
  rw [hct] at hseg
  cases hcopy : copy_current_table_into_new_table rt (schemas.tablesAt rt.table_index)
      ("new_" ++ (schemas.tablesAt rt.table_index).next.name) with
  | panicked m => rw [hcopy] at hseg; simp [bind, POr.bind] at hseg
  | ok copy =>
  rw [hcopy] at hseg
  simp only [bind, POr.bind, pure] at hseg
  have hsegval : seg = [create_table] ++ copy ++
      ["DROP TABLE \"" ++ (schemas.tablesAt rt.table_index).previous.name ++ "\"",
       "ALTER TABLE \"" ++ ("new_" ++ (schemas.tablesAt rt.table_index).next.name) ++
         "\" RENAME TO \"" ++ (schemas.tablesAt rt.table_index).next.name ++ "\""] ++
      (schemas.tablesAt rt.table_index).next.indices.map
        (sqliteRenderCreateIndex (schemas.tablesAt rt.table_index).next.name) := by
    cases hseg
    rfl
  refine ⟨"PRAGMA foreign_keys=OFF" :: b1.flatten,
    b2.flatten ++ ["PRAGMA foreign_key_check", "PRAGMA foreign_keys=ON"],
    copy, create_table, ?_, ?_, ?_, ?_⟩
  · rw [hb, ← hsegval]
    simp [List.flatten_append, List.flatten_cons, List.append_assoc]
  · exact sqliteRenderCreateTableAs_shape _ _ _ hct
  · intro hpairs
    unfold copy_current_table_into_new_table at hcopy
    rw [hpairs] at hcopy
    simp at hcopy
    exact hcopy
  · intro hpairs
    unfold copy_current_table_into_new_table at hcopy
    have hne : rt.column_pairs.isEmpty = false := by
      cases hd : rt.column_pairs with
      | nil => exact absurd hd hpairs
      | cons a l => simp [hd]
    rw [hne] at hcopy
    simp only [Bool.false_eq_true, if_false] at hcopy
    cases hsrcs : porMapM (sqliteSourceColumnExpr (schemas.tablesAt rt.table_index))
        rt.column_pairs with
    | panicked m => rw [hsrcs] at hcopy; simp [bind, POr.bind] at hcopy
    | ok srcs =>
    rw [hsrcs] at hcopy
    simp only [bind, POr.bind, pure] at hcopy
    refine ⟨srcs, rfl, ?_, porMapM_ok_length _ _ _ hsrcs, ?_⟩
    · cases hcopy
      rfl
    · intro i hi hcond
      obtain ⟨y, hy, hget⟩ := porMapM_ok_get _ rt.column_pairs srcs hsrcs i hi
      obtain ⟨d, hd⟩ := Option.isSome_iff_exists.mp (by
        have hc := hcond
        simp only [Bool.and_eq_true] at hc
        exact hc.2)
      unfold sqliteSourceColumnExpr at hy
      simp only [] at hy
      rw [hcond, hd] at hy
      simp only [eq_self_iff_true, if_true, bind, POr.bind] at hy
      cases hrd : sqliteRenderDefault d
          ((schemas.tablesAt rt.table_index).columnsAt
            (rt.column_pairs.get ⟨i, hi⟩).1).next.column_type_family with
      | panicked m => rw [hrd] at hy; simp at hy
      | ok rendered =>
          rw [hrd] at hy
          simp only [pure] at hy
          refine ⟨d, rendered, hd, hrd, ?_⟩
          have hyv := POr.ok.inj hy
          rw [hget, ← hyv]

/-- Witness for `sqlite_redefine_tables_protocol`: the concrete `Cat`
redefinition evaluates to `c1ResultExample`, whose first statement is the
foreign-keys pragma (and which shows the `coalesce("name", 'anon')` copy). -/
theorem sqlite_redefine_tables_protocol_witness :
    renderRedefineTablesSqlite [c1RedefineExample] c1SchemasExample = POr.ok c1ResultExample ∧
    c1ResultExample.head? = some "PRAGMA foreign_keys=OFF" := by
  have hbase : renderRedefineTablesSqlite [c1RedefineExample] c1SchemasExample =
      POr.ok c1ResultExample := by rfl
  exact ⟨hbase,
    (sqlite_redefine_tables_protocol [c1RedefineExample] c1SchemasExample
      c1ResultExample hbase).1⟩
